import Mathlib

/-!
Verification of the invoice/payment ledger and deadline engine of the
ardito-stackfordevs-api backend, shallowly embedded from the TypeScript
source (`src/routes/invoices.ts`, `src/routes/deadlines.ts`,
`src/utils/database.ts`).

Conventions of the embedding:
* Money amounts are rationals (`ℚ`); calendar dates are integer day
  numbers (`ℤ`, days since the Unix epoch, so `0` is 1970-01-01);
  instants are integer milliseconds since the epoch.
* A JSON field that may be absent is an `Option`; `none` is
  `undefined`/`null`.  JavaScript truthiness of a number `x` is `x ≠ 0`;
  of an optional string, `isSome` and nonempty.
* SQL `COALESCE(new, old)` is `Option.getD`.
* Each route handler becomes a pure function from the relevant row(s)
  and the request body to an `Except`-style result; the SQL `UPDATE`
  with `CASE` expressions is translated clause by clause (all `CASE`
  branches read the pre-update row, as in SQL).
-/

namespace StackForDevs

/-- Error taxonomy of the HTTP layer. -/
inductive ApiError where
  | validation : String → ApiError   -- 400
  | notFound : String → ApiError     -- 404
  | server : String → ApiError       -- 500
  deriving Repr, DecidableEq

/-! ## Invoice ledger (`src/routes/invoices.ts`) -/

/-- An `invoices` row, restricted to the columns the handlers under
verification read or write. -/
structure Invoice where
  amount : ℚ
  retainage_percent : ℚ
  retainage_amount : ℚ
  amount_paid : ℚ
  payment_status : String
  paid_date : Option ℤ
  deriving Repr, DecidableEq

/-- A `payments` row (the columns the payment handler writes). -/
structure Payment where
  payment_date : ℤ
  amount : ℚ
  deriving Repr, DecidableEq

/-- Request body of `POST /invoices/:id/payments`.  `none` models an
absent field. -/
structure PaymentReq where
  paymentDate : Option ℤ
  amount : Option ℚ
  deriving Repr, DecidableEq

/-- The `UPDATE invoices SET amount_paid = amount_paid + $1, ...` of
`POST /invoices/:id/payments` (invoices.ts lines 186–201), translated
clause by clause; every `CASE` reads the pre-update row. -/
def applyPaymentUpdate (inv : Invoice) (x : ℚ) (pd : ℤ) : Invoice :=
  { inv with
    amount_paid := inv.amount_paid + x
    payment_status :=
      if inv.amount_paid + x ≥ inv.amount then "paid"
      else if inv.amount_paid + x > 0 then "partial"
      else "pending"
    paid_date :=
      if inv.amount_paid + x ≥ inv.amount then some pd
      else inv.paid_date }

/-- `POST /invoices/:id/payments` (invoices.ts lines 164–208): validate
(`!paymentDate || !amount` rejects an absent date, an absent amount, and
the falsy amount `0`), insert the payment, then update the invoice.
Returns the updated invoice and the appended payment list. -/
def recordPayment (inv : Invoice) (payments : List Payment)
    (req : PaymentReq) : Except ApiError (Invoice × List Payment) :=
  match req.paymentDate, req.amount with
  | some pd, some x =>
      if x = 0 then
        .error (.validation "paymentDate and amount are required")
      else
        .ok (applyPaymentUpdate inv x pd, payments ++ [⟨pd, x⟩])
  | _, _ => .error (.validation "paymentDate and amount are required")

/-- Database state touched by the payment route: the payment ledger and
the parent invoice row. -/
structure LedgerState where
  payments : List Payment
  invoice : Invoice
  deriving Repr, DecidableEq

/-- Execution of the two statements of `POST /invoices/:id/payments` at
the database level.  Each `query` call (database.ts lines 42–69) runs in
its own implicit transaction and auto-commits; the handler does not use
the `transaction` helper (database.ts lines 84–100).
`invoiceUpdateFails` injects a failure of the second statement: the
insert from the first statement is then already committed and is not
rolled back.  Returns the committed state and whether the request
succeeded. -/
def recordPaymentRun (st : LedgerState) (pd : ℤ) (x : ℚ)
    (invoiceUpdateFails : Bool) : LedgerState × Bool :=
  let st1 : LedgerState := { st with payments := st.payments ++ [⟨pd, x⟩] }
  if invoiceUpdateFails then
    (st1, false)
  else
    ({ st1 with invoice := applyPaymentUpdate st.invoice x pd }, true)

/-- Request body of `PUT /invoices/:id` (the fields the handler reads). -/
structure InvoiceUpdateReq where
  amount : Option ℚ
  retainagePercent : Option ℚ
  paymentStatus : Option String
  paidDate : Option ℤ
  deriving Repr, DecidableEq

/-- `PUT /invoices/:id` (invoices.ts lines 110–161): recompute
`retainageAmount` only when **both** `amount` and `retainagePercent` are
supplied (`amount !== undefined && retainagePercent !== undefined`),
then `COALESCE` every column. -/
def updateInvoice (inv : Invoice) (req : InvoiceUpdateReq) : Invoice :=
  let retainageAmount : Option ℚ :=
    match req.amount, req.retainagePercent with
    | some a, some p => some (a * p / 100)
    | _, _ => none
  { inv with
    amount := req.amount.getD inv.amount
    retainage_percent := req.retainagePercent.getD inv.retainage_percent
    retainage_amount := retainageAmount.getD inv.retainage_amount
    payment_status := req.paymentStatus.getD inv.payment_status
    paid_date := req.paidDate.orElse (fun _ => inv.paid_date) }

/-- Request body of `POST /invoices` (the fields relevant to the amount
validation; the other required fields are bundled as Booleans recording
their truthiness). -/
structure CreateInvoiceReq where
  hasUserId : Bool
  hasInvoiceNumber : Bool
  hasInvoiceDate : Bool
  hasDueDate : Bool
  amount : Option ℚ
  retainagePercent : Option ℚ
  deriving Repr, DecidableEq

/-- `POST /invoices` (invoices.ts lines 67–107): reject with 400 when
`!userId || !invoiceNumber || !invoiceDate || !dueDate || !amount`; in
JavaScript `!amount` is true for an absent amount and for the number
`0`.  On success, insert the row with
`retainage_amount = amount * retainagePercent / 100`
(`retainagePercent` defaults to `0`). -/
def createInvoice (req : CreateInvoiceReq) : Except ApiError Invoice :=
  match req.amount with
  | none => .error (.validation
      "userId, invoiceNumber, invoiceDate, dueDate, and amount are required")
  | some a =>
      if req.hasUserId ∧ req.hasInvoiceNumber ∧ req.hasInvoiceDate ∧
          req.hasDueDate ∧ a ≠ 0 then
        let rp := req.retainagePercent.getD 0
        .ok { amount := a
              retainage_percent := rp
              retainage_amount := a * rp / 100
              amount_paid := 0
              payment_status := "pending"
              paid_date := none }
      else
        .error (.validation
          "userId, invoiceNumber, invoiceDate, dueDate, and amount are required")

/-! ## Deadline engine (`src/routes/deadlines.ts`) -/

/-- A `colorado_lien_rules` row. -/
structure LienRule where
  rule_type : String
  project_type : String
  deadline_days : ℕ
  description : String
  trigger_event : String
  statutory_reference : String
  deriving Repr, DecidableEq

/-- Result body of `POST /deadlines/calculate`. -/
structure CalcResult where
  deadlineDate : ℤ
  deadlineDays : ℕ
  description : String
  triggerEvent : String
  statutoryReference : String
  deriving Repr, DecidableEq

/-- The `SELECT * FROM colorado_lien_rules WHERE rule_type = $1 AND
project_type = $2 LIMIT 1` of the calculate handler. -/
def findRule (rules : List LienRule) (deadlineType projectType : String) :
    Option LienRule :=
  rules.find? (fun r => r.rule_type == deadlineType && r.project_type == projectType)

/-- `POST /deadlines/calculate` (deadlines.ts lines 136–176), after the
presence validation of `deadlineType` and `triggerDate`: look up the
rule (404 when none matches) and return
`deadline = trigger + deadline_days` in calendar days, with the rule's
metadata.  (`new Date(trigger); d.setDate(d.getDate() + days)` advances
a date-only value by exactly `days` calendar days.) -/
def calculate (rules : List LienRule) (deadlineType : String)
    (triggerDate : ℤ) (projectType : String) : Except ApiError CalcResult :=
  match findRule rules deadlineType projectType with
  | none => .error (.notFound "No Colorado lien law rule found for this deadline type")
  | some rule =>
      .ok { deadlineDate := triggerDate + rule.deadline_days
            deadlineDays := rule.deadline_days
            description := rule.description
            triggerEvent := rule.trigger_event
            statutoryReference := rule.statutory_reference }

/-- A `deadlines` row, restricted to the columns the handlers under
verification read or write. -/
structure Deadline where
  deadline_type : String
  deadline_date : ℤ
  trigger_date : Option ℤ
  title : String
  status : String
  priority : Option String
  completed_date : Option ℤ
  deriving Repr, DecidableEq

/-- Request body of `POST /deadlines/auto-create` (after its presence
validation of `userId`/`projectId`). -/
structure AutoCreateReq where
  workStartDate : Option ℤ
  workEndDate : Option ℤ
  projectType : String    -- defaulted to "private" by the handler
  deriving Repr, DecidableEq

/-- The preliminary-notice row inserted by the auto-create handler
(deadlines.ts lines 211–236); `s` is the trigger (start) date.  The
`INSERT` omits `status` and `completed_date`, which take the table
defaults: `'pending'` and NULL per the deadlines schema bundled in
`src/jwt-verification.example.ts`. -/
def prelimRow (projectName : String) (s : ℤ) : Deadline :=
  { deadline_type := "preliminary_notice"
    deadline_date := s + 10
    trigger_date := some s
    title := "Preliminary Notice - " ++ projectName
    status := "pending"
    priority := some "high"
    completed_date := none }

/-- The mechanics-lien / payment-bond-claim row inserted by the
auto-create handler (deadlines.ts lines 238–263); `e` is the trigger
(end) date. -/
def lienRow (projectName projectType : String) (e : ℤ) : Deadline :=
  { deadline_type :=
      if projectType = "private" then "mechanics_lien"
      else "payment_bond_claim"
    deadline_date := e + 120
    trigger_date := some e
    title :=
      (if projectType = "private" then "Mechanics Lien" else "Payment Bond Claim")
        ++ " Filing - " ++ projectName
    status := "pending"
    priority := some "critical"
    completed_date := none }

/-- `POST /deadlines/auto-create` (deadlines.ts lines 179–270), given
the fetched project row's name and stored `work_start_date` (a SQL
`DATE` column, `none` when NULL).  Translation notes, faithful to the
JavaScript:
* `const startDate = new Date(workStartDate || project.work_start_date)`
  falls back to the stored date, and when that is SQL NULL evaluates
  `new Date(null)`, which is the Unix epoch (day 0) — a *valid* date;
* a `Date` object is always truthy (even an invalid one), so
  `if (startDate && projectType === 'private')` reduces to the
  project-type test alone;
* the lien branch `const endDate = workEndDate ? new Date(workEndDate)
  : null` uses only the request field, with no fallback to the project
  row. -/
def autoCreate (projectName : String) (projectWorkStartDate : Option ℤ)
    (req : AutoCreateReq) : List Deadline :=
  let startDate : ℤ := match req.workStartDate with
    | some d => d
    | none => match projectWorkStartDate with
      | some d => d
      | none => 0
  let prelim : List Deadline :=
    if req.projectType = "private" then [prelimRow projectName startDate]
    else []
  let lien : List Deadline :=
    match req.workEndDate with
    | some endDate => [lienRow projectName req.projectType endDate]
    | none => []
  prelim ++ lien

/-- The priority tier ladder of the deadlines list handler
(deadlines.ts lines 44–48). -/
def tierPriority (daysRemaining : ℤ) : String :=
  if daysRemaining < 0 then "critical"
  else if daysRemaining ≤ 7 then "critical"
  else if daysRemaining ≤ 14 then "high"
  else if daysRemaining ≤ 30 then "normal"
  else "low"

/-- `calculated_priority` of `GET /deadlines` (deadlines.ts lines
41–49): keep the stored priority when it is truthy and not `"normal"`
(`!autoPriority || autoPriority === 'normal'` enters the tier ladder);
a `NULL` column and the empty string are falsy. -/
def calculatedPriority (priority : Option String) (daysRemaining : ℤ) :
    String :=
  match priority with
  | none => tierPriority daysRemaining
  | some s => if s = "" ∨ s = "normal" then tierPriority daysRemaining else s

/-- `days_remaining` of `GET /deadlines` (deadlines.ts lines 36–39):
`Math.ceil((deadlineDate.getTime() - today.getTime()) / 86400000)`, on
millisecond instants. -/
def daysRemaining (deadlineMs nowMs : ℤ) : ℤ :=
  ⌈((deadlineMs - nowMs : ℚ) / 86400000)⌉

/-- Request body of `PUT /deadlines/:id` (the fields the handler
reads). -/
structure DeadlineUpdateReq where
  deadlineDate : Option ℤ
  title : Option String
  status : Option String
  priority : Option String
  completedDate : Option ℤ
  deriving Repr, DecidableEq

/-- `PUT /deadlines/:id` (deadlines.ts lines 273–310): `COALESCE` every
supplied column independently. -/
def updateDeadline (d : Deadline) (req : DeadlineUpdateReq) : Deadline :=
  { d with
    deadline_date := req.deadlineDate.getD d.deadline_date
    title := req.title.getD d.title
    status := req.status.getD d.status
    priority := req.priority.orElse (fun _ => d.priority)
    completed_date := req.completedDate.orElse (fun _ => d.completed_date) }

/-- `POST /deadlines/:id/complete` (deadlines.ts lines 313–336): set
`status = 'completed'` and `completed_date = CURRENT_DATE`. -/
def completeDeadline (d : Deadline) (today : ℤ) : Deadline :=
  { d with status := "completed", completed_date := some today }

/-- The §3 invariant under scrutiny: `completed_date` is present iff
`status = completed`. -/
def completedInvariant (d : Deadline) : Prop :=
  d.completed_date.isSome ↔ d.status = "completed"

instance (d : Deadline) : Decidable (completedInvariant d) := by
  unfold completedInvariant; infer_instance

/-! ## Concrete rows used as test inputs -/

/-- A fresh invoice of amount 1000 with nothing paid. -/
def invoiceEx0 : Invoice :=
  { amount := 1000, retainage_percent := 0, retainage_amount := 0
    amount_paid := 0, payment_status := "pending", paid_date := none }

/-- An invoice that is already exactly paid, with `paid_date` day 100. -/
def invoicePaid : Invoice :=
  { amount := 1000, retainage_percent := 0, retainage_amount := 0
    amount_paid := 1000, payment_status := "paid", paid_date := some 100 }

/-- A partially paid invoice (500 of 1000). -/
def invoicePartial : Invoice :=
  { amount := 1000, retainage_percent := 0, retainage_amount := 0
    amount_paid := 500, payment_status := "partial", paid_date := none }

/-- An invoice with 10% retainage already computed (100 of 1000). -/
def invoiceRet : Invoice :=
  { amount := 1000, retainage_percent := 10, retainage_amount := 100
    amount_paid := 0, payment_status := "pending", paid_date := none }

/-- Ledger state holding `invoiceEx0` and no payments. -/
def ledgerEx0 : LedgerState := { payments := [], invoice := invoiceEx0 }

/-- A completed deadline satisfying the §3 invariant. -/
def deadlineCompleted : Deadline :=
  { deadline_type := "custom", deadline_date := 60, trigger_date := none
    title := "File the paperwork", status := "completed"
    priority := none, completed_date := some 50 }

/-- A seeded mechanics-lien rule row. -/
def ruleMechLien : LienRule :=
  { rule_type := "mechanics_lien", project_type := "private"
    deadline_days := 120
    description := "File mechanics lien within 4 months of last work"
    trigger_event := "last_day_of_work"
    statutory_reference := "C.R.S. 38-22-109" }

end StackForDevs

namespace StackForDevs

/-! ## Claims -/

/-- **C1** (confirmed).  For every invoice with current `amount_paid` P
and `amount` A and every recorded payment of amount x (x ≠ 0 is exactly
what the route's validation lets through), `POST /invoices/:id/payments`
sets `amount_paid` to P + x with no upper clamp and sets
`payment_status` to `"paid"` if P + x ≥ A, else `"partial"` if
P + x > 0, else `"pending"`; in particular an over-payment (P + x > A)
yields status `"paid"` and `amount_paid` = P + x. -/
theorem recordPayment_ledger_spec (inv : Invoice) (ps : List Payment)
    (pd : ℤ) (x : ℚ) (hx : x ≠ 0) :
    recordPayment inv ps ⟨some pd, some x⟩ =
      .ok ({ inv with
              amount_paid := inv.amount_paid + x
              payment_status :=
                if inv.amount_paid + x ≥ inv.amount then "paid"
                else if inv.amount_paid + x > 0 then "partial" else "pending"
              paid_date :=
                if inv.amount_paid + x ≥ inv.amount then some pd
                else inv.paid_date },
            ps ++ [⟨pd, x⟩]) ∧
    (inv.amount_paid + x > inv.amount →
      (applyPaymentUpdate inv x pd).payment_status = "paid" ∧
      (applyPaymentUpdate inv x pd).amount_paid = inv.amount_paid + x) := by
  constructor
  · simp [recordPayment, hx, applyPaymentUpdate]
  · intro h
    simp [applyPaymentUpdate, le_of_lt h]

/-- Witness for C1: the over-payment of the spec's §8 example —
Invoice(amount = 1000, amount_paid = 0), Payment(amount = 1200) yields
status `"paid"` and `amount_paid` = 1200. -/
theorem recordPayment_ledger_spec_witness :
    recordPayment invoiceEx0 [] ⟨some 5, some 1200⟩ =
      .ok ({ invoiceEx0 with
              amount_paid := 1200, payment_status := "paid"
              paid_date := some 5 }, [⟨5, 1200⟩]) := by
  rw [(recordPayment_ledger_spec invoiceEx0 [] 5 1200 (by norm_num)).1]
  norm_num [invoiceEx0]

/-- **C2** (code bug).  The claim asserts the Payment insert and the
Invoice update of `POST /invoices/:id/payments` are atomic.  They are
two independent auto-committed `query` calls (the handler does not use
the `transaction` helper), so a failure of the second statement leaves a
committed Payment row that the Invoice's `amount_paid` does not reflect:
on a fresh 1000-invoice, a 400 payment whose invoice update fails leaves
the payment in the ledger while `amount_paid` stays 0 (whereas the
non-failing run reaches 400). -/
theorem recordPayment_two_statements_not_both_rolled_back :
    (recordPaymentRun ledgerEx0 1 400 true).2 = false ∧
    (recordPaymentRun ledgerEx0 1 400 true).1.payments = [⟨1, 400⟩] ∧
    (recordPaymentRun ledgerEx0 1 400 true).1.invoice.amount_paid = 0 ∧
    (recordPaymentRun ledgerEx0 1 400 false).1.invoice.amount_paid = 400 := by
  norm_num [recordPaymentRun, ledgerEx0, invoiceEx0, applyPaymentUpdate]

/-- **C6 counterexample**.  On an invoice that is *already* paid
(amount 1000, amount_paid 1000, paid_date day 100), a further payment of
50 on day 200 rewrites `paid_date` to day 200 — the `CASE` sets
`paid_date` whenever the post-payment total reaches the amount, not only
on the transition into `"paid"`, so the claim "in every other case paid
date is left unchanged" fails. -/
theorem paid_date_overwritten_counterexample :
    recordPayment invoicePaid [] ⟨some 200, some 50⟩ =
      .ok ({ invoicePaid with
              amount_paid := 1050, payment_status := "paid"
              paid_date := some 200 }, [⟨200, 50⟩]) ∧
    invoicePaid.paid_date = some 100 := by
  norm_num [recordPayment, invoicePaid, applyPaymentUpdate]

/-- **C6** (corrected).  `paid_date` is set to the recorded payment's
date whenever the post-payment `amount_paid` reaches or exceeds
`amount` — including further payments on an invoice that is already
paid — and is left unchanged only when the post-payment total stays
below `amount`. -/
theorem recordPayment_paid_date_amended (inv : Invoice) (ps : List Payment)
    (pd : ℤ) (x : ℚ) (hx : x ≠ 0) (inv' : Invoice) (ps' : List Payment)
    (h : recordPayment inv ps ⟨some pd, some x⟩ = .ok (inv', ps')) :
    inv'.paid_date =
      if inv.amount_paid + x ≥ inv.amount then some pd else inv.paid_date := by
  simp only [recordPayment, if_neg hx] at h
  rw [Except.ok.injEq, Prod.mk.injEq] at h
  obtain ⟨h1, -⟩ := h
  subst h1
  rfl

/-- Witness for C6's amended statement: the already-paid invoice of the
counterexample, where the amended rule predicts `paid_date` = day 200. -/
theorem recordPayment_paid_date_amended_witness :
    ({ invoicePaid with
        amount_paid := 1050, payment_status := "paid"
        paid_date := some 200 } : Invoice).paid_date =
      if invoicePaid.amount_paid + 50 ≥ invoicePaid.amount then some 200
      else invoicePaid.paid_date :=
  recordPayment_paid_date_amended invoicePaid [] 200 50
    (by norm_num)
    ({ invoicePaid with
        amount_paid := 1050, payment_status := "paid", paid_date := some 200 })
    [⟨200, 50⟩]
    (by norm_num [recordPayment, invoicePaid, applyPaymentUpdate])

/-- **C7 counterexample**.  The route's validation `!paymentDate ||
!amount` rejects the falsy amount 0 but accepts a *negative* amount: a
payment of −200 against a half-paid 1000-invoice is inserted and drops
`amount_paid` from 500 to 300, so `amount_paid` is not monotonically
non-decreasing and payments with amount < 0 are accepted into the
ledger. -/
theorem amount_paid_decreases_counterexample :
    recordPayment invoicePartial [] ⟨some 10, some (-200)⟩ =
      .ok ({ invoicePartial with
              amount_paid := 300, payment_status := "partial" }, [⟨10, -200⟩]) ∧
    ¬ invoicePartial.amount_paid ≤ (300 : ℚ) := by
  norm_num [recordPayment, invoicePartial, applyPaymentUpdate]

/-- **C7** (corrected).  `amount_paid` is non-decreasing across every
accepted payment of non-negative amount, and amount 0 is indeed rejected
by validation; but negative amounts pass validation, so monotonicity
over all accepted payments fails. -/
theorem recordPayment_monotone_amended (inv : Invoice) (ps : List Payment)
    (pd : ℤ) (x : ℚ) (hx : 0 ≤ x) (inv' : Invoice) (ps' : List Payment)
    (h : recordPayment inv ps ⟨some pd, some x⟩ = .ok (inv', ps')) :
    inv.amount_paid ≤ inv'.amount_paid ∧
    recordPayment inv ps ⟨some pd, some 0⟩ =
      .error (.validation "paymentDate and amount are required") := by
  constructor
  · by_cases hx0 : x = 0
    · subst hx0
      exact absurd h (by simp [recordPayment])
    · simp only [recordPayment, if_neg hx0] at h
      rw [Except.ok.injEq, Prod.mk.injEq] at h
      obtain ⟨h1, -⟩ := h
      subst h1
      simp only [applyPaymentUpdate]
      linarith
  · simp [recordPayment]

/-- Witness for C7's amended statement: a 400 payment on the fresh
1000-invoice does not decrease `amount_paid`, and a 0 payment on it is
rejected. -/
theorem recordPayment_monotone_amended_witness :
    invoiceEx0.amount_paid ≤
      ({ invoiceEx0 with
          amount_paid := 400, payment_status := "partial" } : Invoice).amount_paid ∧
    recordPayment invoiceEx0 [] ⟨some 5, some 0⟩ =
      .error (.validation "paymentDate and amount are required") :=
  recordPayment_monotone_amended invoiceEx0 [] 5 400 (by norm_num)
    ({ invoiceEx0 with amount_paid := 400, payment_status := "partial" })
    [⟨5, 400⟩]
    (by norm_num [recordPayment, invoiceEx0, applyPaymentUpdate])

/-- **C8** (code bug).  The update handler's own comment says
"Calculate retainage if amount or percent changes", but the code only
recomputes when **both** are supplied (`&&`).  Supplying only
`amount = 2000` on an invoice with `retainage_percent = 10` and
`retainage_amount = 100` leaves `retainage_amount` at the stale 100
instead of 2000 × 10 / 100 = 200.  (On the both-supplied path the
`DECIMAL(12,2)` column quantizes the assigned product half-up to two
decimals, as the claim requires; the divergence is solely the `&&`
condition.) -/
theorem updateInvoice_retainage_stale :
    (updateInvoice invoiceRet ⟨some 2000, none, none, none⟩).amount = 2000 ∧
    (updateInvoice invoiceRet ⟨some 2000, none, none, none⟩).retainage_percent = 10 ∧
    (updateInvoice invoiceRet ⟨some 2000, none, none, none⟩).retainage_amount = 100 ∧
    (updateInvoice invoiceRet ⟨some 2000, none, none, none⟩).retainage_amount ≠
      (updateInvoice invoiceRet ⟨some 2000, none, none, none⟩).amount *
        (updateInvoice invoiceRet ⟨some 2000, none, none, none⟩).retainage_percent
        / 100 := by
  norm_num [updateInvoice, invoiceRet]

/-- **C10** (confirmed).  `POST /invoices` rejects with a 400 validation
error every request whose `amount` is absent or exactly 0 (both falsy
under `!amount`), so no invoice row with amount 0 can be created through
the public interface. -/
theorem createInvoice_rejects_zero (req : CreateInvoiceReq)
    (h : req.amount = none ∨ req.amount = some 0) :
    createInvoice req =
      .error (.validation
        "userId, invoiceNumber, invoiceDate, dueDate, and amount are required") := by
  rcases h with h | h <;> simp [createInvoice, h]

/-- Witness for C10: an otherwise fully populated request with
`amount = 0` is rejected. -/
theorem createInvoice_rejects_zero_witness :
    createInvoice ⟨true, true, true, true, some 0, some 5⟩ =
      .error (.validation
        "userId, invoiceNumber, invoiceDate, dueDate, and amount are required") :=
  createInvoice_rejects_zero ⟨true, true, true, true, some 0, some 5⟩
    (Or.inr rfl)

/-- **C3** (confirmed).  `POST /deadlines/calculate`: when no
`colorado_lien_rules` row matches the (deadline_type, project_type)
pair the handler fails with the 404 NotFound error and never returns a
default result; when a rule with `deadline_days = d` matches, it
returns `deadline_date = trigger_date + d` calendar days exactly,
together with the rule's days, description, trigger event and statutory
reference. -/
theorem calculate_rule_spec (rules : List LienRule) (dt pt : String)
    (t : ℤ) :
    (findRule rules dt pt = none →
      calculate rules dt t pt =
        .error (.notFound
          "No Colorado lien law rule found for this deadline type")) ∧
    (∀ r, findRule rules dt pt = some r →
      calculate rules dt t pt =
        .ok { deadlineDate := t + r.deadline_days
              deadlineDays := r.deadline_days
              description := r.description
              triggerEvent := r.trigger_event
              statutoryReference := r.statutory_reference }) := by
  constructor
  · intro h
    simp [calculate, h]
  · intro r h
    simp [calculate, h]

/-- Witness for C3: the seeded 120-day mechanics-lien rule maps trigger
day 100 to deadline day 220, and the unseeded
(payment_bond_claim, public) pair yields the 404, not a default. -/
theorem calculate_rule_spec_witness :
    calculate [ruleMechLien] "mechanics_lien" 100 "private" =
      .ok { deadlineDate := 220, deadlineDays := 120
            description := ruleMechLien.description
            triggerEvent := ruleMechLien.trigger_event
            statutoryReference := ruleMechLien.statutory_reference } ∧
    calculate [ruleMechLien] "payment_bond_claim" 100 "public" =
      .error (.notFound
        "No Colorado lien law rule found for this deadline type") := by
  constructor
  · have h := (calculate_rule_spec [ruleMechLien] "mechanics_lien" "private"
      100).2 ruleMechLien (by decide)
    simpa [ruleMechLien] using h
  · exact (calculate_rule_spec [ruleMechLien] "payment_bond_claim" "public"
      100).1 (by decide)

/-- **C4 counterexample**.  A *public* project with only a start date
known gets zero auto-created deadlines, not the claimed single
preliminary notice: the preliminary-notice branch requires
`projectType === 'private'`. -/
theorem autoCreate_start_only_public_counterexample :
    autoCreate "Acme Plaza" (some 50) ⟨some 100, none, "public"⟩ = [] ∧
    (autoCreate "Acme Plaza" (some 50) ⟨some 100, none, "public"⟩).length ≠ 1 := by
  decide

/-- Shape of the auto-create output: the nested date fallbacks of the
handler fold to `Option.getD`. -/
theorem autoCreate_eq (pn : String) (pws ws we : Option ℤ) (pt : String) :
    autoCreate pn pws ⟨ws, we, pt⟩ =
      (if pt = "private" then [prelimRow pn (ws.getD (pws.getD 0))] else [])
        ++ we.elim [] (fun e => [lienRow pn pt e]) := by
  rcases ws with _ | s <;> rcases pws with _ | s0 <;> rcases we with _ | e <;> rfl

/-- **C4** (corrected).  `POST /deadlines/auto-create` creates the
preliminary-notice deadline (start + 10, priority high, trigger =
start) iff the project type is private — regardless of whether a start
date is known, the effective start falling back to the project's stored
work start date and, when that is SQL NULL, to `new Date(null)`, the
Unix epoch; and it creates the mechanics-lien (private) /
payment-bond-claim (public) deadline (end + 120, priority critical,
trigger = end) iff the request supplies `workEndDate`.  Hence:
start-only private → 1, start-only public → 0, end-only public → 1,
end-only private with the stored start NULL → 2 (the second computed
from the epoch), both private → 2, both public → 1, and with neither
date known a private project still gets one preliminary notice at epoch
+ 10 while a public one gets zero; no error in any case. -/
theorem autoCreate_amended (pn : String) (pws : Option ℤ)
    (req : AutoCreateReq) (s e : ℤ) :
    autoCreate pn pws req =
      (if req.projectType = "private"
        then [prelimRow pn (req.workStartDate.getD (pws.getD 0))] else [])
        ++ req.workEndDate.elim [] (fun d => [lienRow pn req.projectType d]) ∧
    (autoCreate pn pws req).length =
      (if req.projectType = "private" then 1 else 0) +
      (if req.workEndDate.isSome then 1 else 0) ∧
    (prelimRow pn s).deadline_type = "preliminary_notice" ∧
    (prelimRow pn s).deadline_date = s + 10 ∧
    (prelimRow pn s).trigger_date = some s ∧
    (prelimRow pn s).priority = some "high" ∧
    (lienRow pn "private" e).deadline_type = "mechanics_lien" ∧
    (lienRow pn "public" e).deadline_type = "payment_bond_claim" ∧
    (lienRow pn req.projectType e).deadline_date = e + 120 ∧
    (lienRow pn req.projectType e).trigger_date = some e ∧
    (lienRow pn req.projectType e).priority = some "critical" := by
  obtain ⟨ws, we, pt⟩ := req
  refine ⟨autoCreate_eq pn pws ws we pt, ?_, rfl, rfl, rfl, rfl, ?_, ?_, rfl, rfl, rfl⟩
  · rw [autoCreate_eq pn pws ws we pt]
    rcases we with _ | d <;> by_cases hp : pt = "private" <;> simp [hp]
  · simp [lienRow]
  · simp [lienRow]

/-- **C5** (confirmed).  In the `GET /deadlines` list, `days_remaining`
is the ceiling of the millisecond difference divided by one day (so on
whole-day instants it is the exact day difference, possibly negative),
and `calculated_priority` equals the stored priority whenever that is
set (truthy) and not `"normal"`, and is otherwise derived by tiers:
negative → critical, ≤ 7 → critical, ≤ 14 → high, ≤ 30 → normal, else
low; in particular 5 → critical, 10 → high, 20 → normal, 40 → low,
−3 → critical, and a stored `"low"` always wins. -/
theorem deadline_priority_spec (s : String) (dr d n : ℤ) :
    calculatedPriority none dr = tierPriority dr ∧
    calculatedPriority (some "normal") dr = tierPriority dr ∧
    calculatedPriority (some "") dr = tierPriority dr ∧
    (s ≠ "" → s ≠ "normal" → calculatedPriority (some s) dr = s) ∧
    calculatedPriority (some "low") dr = "low" ∧
    (dr < 0 → tierPriority dr = "critical") ∧
    (0 ≤ dr → dr ≤ 7 → tierPriority dr = "critical") ∧
    (7 < dr → dr ≤ 14 → tierPriority dr = "high") ∧
    (14 < dr → dr ≤ 30 → tierPriority dr = "normal") ∧
    (30 < dr → tierPriority dr = "low") ∧
    calculatedPriority none 5 = "critical" ∧
    calculatedPriority none 10 = "high" ∧
    calculatedPriority none 20 = "normal" ∧
    calculatedPriority none 40 = "low" ∧
    calculatedPriority none (-3) = "critical" ∧
    daysRemaining (d * 86400000) (n * 86400000) = d - n := by
  refine ⟨rfl, by simp [calculatedPriority], by simp [calculatedPriority],
    ?_, by simp [calculatedPriority], ?_, ?_, ?_, ?_, ?_,
    by decide, by decide, by decide, by decide, by decide, ?_⟩
  · intro h1 h2
    simp [calculatedPriority, h1, h2]
  · intro h
    simp [tierPriority, h]
  · intro h1 h2
    unfold tierPriority
    rw [if_neg (by omega), if_pos h2]
  · intro h1 h2
    unfold tierPriority
    rw [if_neg (by omega), if_neg (by omega), if_pos h2]
  · intro h1 h2
    unfold tierPriority
    rw [if_neg (by omega), if_neg (by omega), if_neg (by omega), if_pos h2]
  · intro h
    unfold tierPriority
    rw [if_neg (by omega), if_neg (by omega), if_neg (by omega),
      if_neg (by omega)]
  · unfold daysRemaining
    have h2 : ((d * 86400000 : ℤ) - (n * 86400000 : ℤ) : ℚ) / 86400000 =
        ((d - n : ℤ) : ℚ) := by
      push_cast
      field_simp
      ring
    rw [show ((d * 86400000 : ℤ) : ℚ) - ((n * 86400000 : ℤ) : ℚ) =
        ((d * 86400000 : ℤ) - (n * 86400000 : ℤ) : ℚ) by push_cast; ring,
      h2, Int.ceil_intCast]

/-- Witness for C5: a stored non-normal priority (`"critical"`) wins at
40 days out, and the 0-to-7-day tier yields `"critical"` at 5 days. -/
theorem deadline_priority_spec_witness :
    calculatedPriority (some "critical") 40 = "critical" ∧
    tierPriority 5 = "critical" := by
  constructor
  · exact (deadline_priority_spec "critical" 40 0 0).2.2.2.1
      (by decide) (by decide)
  · exact (deadline_priority_spec "x" 5 0 0).2.2.2.2.2.2.1
      (by decide) (by decide)

/-- **C9 counterexample**.  `PUT /deadlines/:id` coalesces columns
independently: on a completed deadline satisfying the invariant,
updating only `status` to `"pending"` leaves the stale `completed_date`
in place, producing a non-completed row with a `completed_date` — the
invariant is not preserved by every operation. -/
theorem completed_invariant_update_counterexample :
    completedInvariant deadlineCompleted ∧
    ¬ completedInvariant
        (updateDeadline deadlineCompleted ⟨none, none, some "pending", none, none⟩) := by
  decide

/-- **C9** (corrected).  `POST /deadlines/:id/complete` always
establishes the completed-date invariant, and `PUT /deadlines/:id`
preserves it on any request that supplies neither `status` nor
`completedDate`; but a request supplying only one of the two can break
it, so the invariant is not preserved by every operation. -/
theorem completed_invariant_amended (d : Deadline) (today : ℤ)
    (req : DeadlineUpdateReq) (hinv : completedInvariant d)
    (hs : req.status = none) (hc : req.completedDate = none) :
    completedInvariant (completeDeadline d today) ∧
    completedInvariant (updateDeadline d req) := by
  constructor
  · simp [completedInvariant, completeDeadline]
  · unfold completedInvariant at hinv ⊢
    simpa [updateDeadline, hs, hc] using hinv

/-- Witness for C9's amended statement: completing the sample deadline,
and updating its date, title and priority without touching status or
completed date, both leave the invariant intact. -/
theorem completed_invariant_amended_witness :
    completedInvariant (completeDeadline deadlineCompleted 7) ∧
    completedInvariant
      (updateDeadline deadlineCompleted
        ⟨some 61, some "New title", none, some "high", none⟩) :=
  completed_invariant_amended deadlineCompleted 7
    ⟨some 61, some "New title", none, some "high", none⟩
    (by decide) rfl rfl

end StackForDevs
